import Mathlib

/-!
Verification of the tunnel9 SSH tunnel manager core (Go) against its
natural-language specification.

Strings from the Go source are modelled as `List Char`; Go byte strings in
this code path are ASCII, where the two views coincide.  Go `int` is
modelled as `Int` (with the 64-bit clamping of `strconv.Atoi` made
explicit), `time.Duration` as `Int` nanoseconds (with the `-1` latency
sentinel), `float64` rate arithmetic as `Rat`, and wall-clock instants as
`Rat` seconds.  Channels, goroutine spawns and lock-protected pointer
updates are modelled by explicit state passing and event traces; each
definition mirrors one function of the source.
-/

/-- Go `strings.Split(s, sep)` for a single-character separator: the list of
(possibly empty) substrings between occurrences of `sep`.  On the empty
string it returns `[[]]`, as `strings.Split` returns `[""]`. -/
def splitOnChar (sep : Char) : List Char → List (List Char)
  | [] => [[]]
  | c :: rest =>
    if c = sep then
      [] :: splitOnChar sep rest
    else
      match splitOnChar sep rest with
      | [] => [[c]]
      | h :: t => (c :: h) :: t

/-- Decides whether `strconv.Atoi` would accept the string: an optional
sign followed by at least one ASCII digit. -/
def validIntString (s : List Char) : Bool :=
  match s with
  | [] => false
  | c :: rest =>
    let digits := if c = '-' ∨ c = '+' then rest else s
    !digits.isEmpty && digits.all Char.isDigit

/-- Numeric value of a list of ASCII digits, most significant first. -/
def digitsToNat (s : List Char) : Nat :=
  s.foldl (fun acc c => acc * 10 + (c.toNat - '0'.toNat)) 0

/-- Go `strconv.Atoi` with the error discarded, as in
`endpoint.Port, _ = strconv.Atoi(parts[1])`: a syntactically invalid string
yields 0 (the zero value is returned with `ErrSyntax`); a valid string whose
value overflows a 64-bit int yields the clamped bound (returned with
`ErrRange`). -/
def goAtoi (s : List Char) : Int :=
  match s with
  | [] => 0
  | c :: rest =>
    let neg : Bool := c = '-'
    let digits := if c = '-' ∨ c = '+' then rest else s
    if !digits.isEmpty && digits.all Char.isDigit then
      let n := digitsToNat digits
      if neg then
        if n > 2 ^ 63 then -(2 ^ 63 : Int) else -(n : Int)
      else
        if n > 2 ^ 63 - 1 then ((2 ^ 63 : Int) - 1) else (n : Int)
    else 0

/-- The `Endpoint` struct of `endpoint.go`. -/
structure Endpoint where
  Host : List Char
  Port : Int
  User : List Char
deriving DecidableEq, Repr

/-- `NewEndpointFromString` of `endpoint.go`: start with `Host := s`; if
splitting on `"@"` gives more than one part, take `parts[0]` as user and
`parts[1]` as host; then if splitting the host on `":"` gives more than one
part, take `parts[0]` as host and `Atoi(parts[1])` as port. -/
def NewEndpointFromString (s : List Char) : Endpoint :=
  let (user, host1) :=
    match splitOnChar '@' s with
    | p0 :: p1 :: _ => (p0, p1)
    | _ => (([] : List Char), s)
  match splitOnChar ':' host1 with
  | q0 :: q1 :: _ => { Host := q0, Port := goAtoi q1, User := user }
  | _ => { Host := host1, Port := 0, User := user }

/-- `NewEndpoint` of `endpoint.go`: start from the `host` and `port`
arguments; if `host` is empty and fallback hosts were supplied, substitute
the first fallback; then apply the same `"@"` and `":"` splitting, the
embedded port (when present) replacing the `port` argument. -/
def NewEndpoint (host : List Char) (port : Int) (fallbackHosts : List (List Char)) : Endpoint :=
  let host0 := if host = [] ∧ fallbackHosts ≠ [] then fallbackHosts.headD [] else host
  let (user, host1) :=
    match splitOnChar '@' host0 with
    | p0 :: p1 :: _ => (p0, p1)
    | _ => (([] : List Char), host0)
  match splitOnChar ':' host1 with
  | q0 :: q1 :: _ => { Host := q0, Port := goAtoi q1, User := user }
  | _ => { Host := host1, Port := port, User := user }

/-- The connection-level error patterns of `isConnectionError` in
`tunnel.go`. -/
def connectionErrors : List (List Char) :=
  ["connection refused".toList, "connection reset".toList, "broken pipe".toList,
   "network is unreachable".toList, "no route to host".toList, "timeout".toList,
   "connection timed out".toList, "ssh: disconnect".toList,
   "ssh: connection lost".toList, "use of closed network connection".toList]

/-- Go `strings.Contains(s, sub)`: `sub` occurs as a contiguous substring
of `s` (every string contains the empty string). -/
def goContains (sub : List Char) : List Char → Bool
  | [] => sub.isEmpty
  | c :: rest => sub.isPrefixOf (c :: rest) || goContains sub rest

/-- `isConnectionError` of `tunnel.go`: a nil error is not a connection
error; otherwise lowercase the message and look for any of the patterns as
a substring (`strings.Contains`). -/
def isConnectionError : Option (List Char) → Bool
  | none => false
  | some e =>
    let errStr := e.map Char.toLower
    connectionErrors.any (fun p => goContains p errStr)

/-- Observable actions of one run of the remote-dial retry loop in
`Tunnel.forward` (`tunnel.go`): the stop-channel poll at the top of each
iteration, each `client.Dial` attempt, the debug log after a failure, each
"error" status emission (one from `errorf`, one from the explicit
`updateStatus`), the close-and-nil of the shared client, and each backoff
sleep (milliseconds). -/
inductive ForwardEvent where
  | checkStop (attempt : Nat)
  | dialAttempt (attempt : Nat)
  | logFailure (attempt : Nat)
  | statusError
  | closeClient
  | sleep (ms : Nat)
deriving DecidableEq, Repr

/-- How the retry loop of `Tunnel.forward` ends. -/
inductive ForwardOutcome where
  | stopped (attempt : Nat)
  | clientNil (attempt : Nat)
  | failed
  | connected (attempt : Nat)
  | exhausted
deriving DecidableEq, Repr

/-- `maxRetries := 3` in `Tunnel.forward`. -/
def maxRetries : Nat := 3

/-- `baseDelay := time.Second` in `Tunnel.forward`, in milliseconds. -/
def baseDelay : Nat := 1000

/-- The teardown condition of `Tunnel.forward` on a failed remote dial:
`attempt == maxRetries-1 || t.isConnectionError(err)` — last attempt or a
connection-class error. -/
def closesClientOnFailure (attempt : Nat) (e : List Char) : Bool :=
  attempt == maxRetries - 1 || isConnectionError (some e)

/-- The remote-dial retry loop of `Tunnel.forward`, from a given attempt
index with the given fuel (`maxRetries - attempt` iterations remain).
`client` is whether the local `client` variable read under the lock is
non-nil; `stop` tells whether the stop channel is closed when polled before
attempt `a`; `dial a` is `none` on success or the error message.  Returns
the event trace and the outcome. -/
def retryFrom (client : Bool) (stop : Nat → Bool) (dial : Nat → Option (List Char)) :
    Nat → Nat → List ForwardEvent × ForwardOutcome
  | 0, _ => ([], .exhausted)
  | fuel + 1, attempt =>
    if stop attempt then
      ([.checkStop attempt], .stopped attempt)
    else if !client then
      ([.checkStop attempt, .statusError], .clientNil attempt)
    else
      match dial attempt with
      | none => ([.checkStop attempt, .dialAttempt attempt], .connected attempt)
      | some e =>
        if closesClientOnFailure attempt e then
          ([.checkStop attempt, .dialAttempt attempt, .logFailure attempt,
            .statusError, .statusError, .closeClient], .failed)
        else
          let d := (attempt + 1) * baseDelay
          let r := retryFrom client stop dial fuel (attempt + 1)
          ([.checkStop attempt, .dialAttempt attempt, .logFailure attempt,
            .sleep d] ++ r.1, r.2)

/-- The whole retry loop: `for attempt := 0; attempt < maxRetries; attempt++`. -/
def forwardRetryLoop (client : Bool) (stop : Nat → Bool)
    (dial : Nat → Option (List Char)) : List ForwardEvent × ForwardOutcome :=
  retryFrom client stop dial maxRetries 0

/-- A stop channel that is never signalled. -/
def stopNever : Nat → Bool := fun _ => false

/-- Recognizes a `client.Dial` attempt in a trace. -/
def isDialEvent : ForwardEvent → Bool
  | .dialAttempt _ => true
  | _ => false

/-- The backoff sleeps of a trace, in order. -/
def sleepDurations (tr : List ForwardEvent) : List Nat :=
  tr.filterMap (fun ev => match ev with | .sleep d => some d | _ => none)

/-- The `bastion` group of `TunnelConfig` (`config.go`). -/
structure BastionConfig where
  Host : List Char
  User : List Char
  Port : Int
deriving DecidableEq, Repr

/-- The `TunnelConfig` struct of `config.go`. -/
structure TunnelConfig where
  Name : List Char
  LocalPort : Int
  RemotePort : Int
  RemoteHost : List Char
  Tag : List Char
  BindAddress : List Char
  Bastion : BastionConfig
deriving DecidableEq, Repr

/-- `figureOutRemoteVsBastion` of `tunnel.go`: start in bastion mode (SSH
hop is the bastion host and bastion port, remote target is
remoteHost:remotePort); if no bastion host is set, the SSH hop host becomes
the remote host and the remote target host becomes "localhost"; the SSH hop
port — still the bastion port field — defaults to 22 when 0.  Returns
(sshEndpoint, remoteEndpoint). -/
def figureOutRemoteVsBastion (config : TunnelConfig) : Endpoint × Endpoint :=
  let sshHost := config.Bastion.Host
  let sshPort := config.Bastion.Port
  let remoteHost := config.RemoteHost
  let remotePort := config.RemotePort
  let (sshHost, remoteHost) :=
    if sshHost = [] then (config.RemoteHost, "localhost".toList) else (sshHost, remoteHost)
  let sshPort := if sshPort = 0 then 22 else sshPort
  let remoteEndpoint := NewEndpoint remoteHost remotePort []
  let sshEndpoint := NewEndpoint sshHost sshPort []
  (sshEndpoint, remoteEndpoint)

/-- A tunnel configuration with no bastion, used to refute C3. -/
def c3Config : TunnelConfig :=
  { Name := "db".toList, LocalPort := 15432, RemotePort := 5432,
    RemoteHost := "db.example.com".toList, Tag := [], BindAddress := [],
    Bastion := { Host := [], User := [], Port := 0 } }

/-- A tunnel configuration with a bastion on a nonstandard port. -/
def c3BastionConfig : TunnelConfig :=
  { Name := "db".toList, LocalPort := 15432, RemotePort := 5432,
    RemoteHost := "db.internal".toList, Tag := [], BindAddress := [],
    Bastion := { Host := "jump.example.com".toList, User := "ops".toList, Port := 2222 } }

/-- State of the Go channel held in `Tunnel.stopChan`: the nil zero value
(tunnel never started), an open channel, or a closed channel. -/
inductive ChanState where
  | nilChan
  | opened
  | closed
deriving DecidableEq, Repr

/-- The fields of `Tunnel` touched by `Tunnel.Stop`. -/
structure TunnelStopState where
  stopChan : ChanState
  Client : Option Unit
deriving DecidableEq, Repr

/-- `Tunnel.Stop` of `tunnel.go`: `if t.stopChan != nil { close(t.stopChan) }`
— note `close` on an already-closed Go channel panics, and `Stop` never sets
`stopChan` back to nil — then, under the client lock,
`if t.Client != nil { t.Client.Close(); t.Client = nil }`.  A Go runtime
panic is modelled as `Except.error` with the runtime's message. -/
def Stop (t : TunnelStopState) : Except (List Char) TunnelStopState :=
  match t.stopChan with
  | .nilChan => .ok { stopChan := .nilChan, Client := none }
  | .opened => .ok { stopChan := .closed, Client := none }
  | .closed => .error "close of closed channel".toList

/-- A tunnel that has been started: `connect` has initialized `stopChan`
and a shared client exists. -/
def startedTunnel : TunnelStopState := { stopChan := .opened, Client := some () }

/-- The `TunnelMetrics` struct of `tunnel.go`: byte counters and their last
snapshots as `Int` (Go int64), the last-update instant as `Rat` seconds,
the rates as `Rat` (Go float64 bytes/second), and `Latency` as `Int`
nanoseconds with `-1` as the "unknown" sentinel. -/
structure TunnelMetrics where
  BytesIn : Int
  BytesOut : Int
  LastBytesIn : Int
  LastBytesOut : Int
  LastUpdate : Rat
  CurrentRateIn : Rat
  CurrentRateOut : Rat
  Latency : Int
deriving DecidableEq, Repr

/-- `Tunnel.updateMetrics` of `tunnel.go` at tick instant `now`: if the
elapsed time since `LastUpdate` is strictly positive, set each rate to
(counter − last snapshot) / elapsed seconds and advance the snapshots and
`LastUpdate`; otherwise do nothing. -/
def updateMetrics (m : TunnelMetrics) (now : Rat) : TunnelMetrics :=
  let elapsed := now - m.LastUpdate
  if 0 < elapsed then
    { m with
      CurrentRateIn := ((m.BytesIn - m.LastBytesIn : Int) : Rat) / elapsed,
      CurrentRateOut := ((m.BytesOut - m.LastBytesOut : Int) : Rat) / elapsed,
      LastBytesIn := m.BytesIn,
      LastBytesOut := m.BytesOut,
      LastUpdate := now }
  else m

/-- A metrics state mid-flight: nonzero counters, stale positive rates. -/
def sampleMetrics : TunnelMetrics :=
  { BytesIn := 3000, BytesOut := 1500, LastBytesIn := 1000, LastBytesOut := 500,
    LastUpdate := 10, CurrentRateIn := 7, CurrentRateOut := 7, Latency := 50 }

/-- The tunnel state seen by the health/metrics ticker goroutine of
`Tunnel.connect`. -/
structure HealthState where
  Client : Option Unit
  Metrics : TunnelMetrics
deriving DecidableEq, Repr

/-- One `ticker.C` iteration of the health/metrics goroutine started by
`Tunnel.connect` (`tunnel.go`): if the client is nil, skip the tick;
otherwise run `updateMetrics`, then open a lightweight session on the
client; on failure set `Latency` to the `-1` sentinel and close and clear
the shared client (so the next connection reconnects); on success record
the measured open time and close the session.  `now` is the tick instant,
`sessionErr` the result of `client.NewSession()`, `measured` the measured
elapsed time. -/
def healthTick (s : HealthState) (now : Rat) (sessionErr : Option (List Char))
    (measured : Int) : HealthState :=
  match s.Client with
  | none => s
  | some _ =>
    let m1 := updateMetrics s.Metrics now
    match sessionErr with
    | some _ => { Client := none, Metrics := { m1 with Latency := -1 } }
    | none => { Client := s.Client, Metrics := { m1 with Latency := measured } }

/-- The `Tunnel` record as allocated by `TunnelManager.CreateTunnel`
(`manager.go`): id, nil client, the config, and the capacities of the
per-tunnel buffered log and status channels. -/
structure ManagedTunnel where
  ID : List Char
  Client : Option Unit
  Config : TunnelConfig
  LogChanCap : Nat
  StatusChanCap : Nat
deriving DecidableEq, Repr

/-- The manager registry (`tm.tunnels`, a map keyed by id, modelled as an
association list) together with the number of status fan-in goroutines the
manager has spawned. -/
structure ManagerState where
  tunnels : List (List Char × ManagedTunnel)
  statusForwarders : Nat
deriving DecidableEq, Repr

/-- `TunnelManager.CreateTunnel` of `manager.go`: if the id already exists
in the registry, return the registered tunnel and change nothing; otherwise
allocate a tunnel (nil client, log channel buffered at 50, status channel
buffered at 2), start one status-forwarding goroutine, and register it. -/
def CreateTunnel (st : ManagerState) (id : List Char) (config : TunnelConfig) :
    ManagedTunnel × ManagerState :=
  match st.tunnels.lookup id with
  | some t => (t, st)
  | none =>
    let t : ManagedTunnel :=
      { ID := id, Client := none, Config := config, LogChanCap := 50, StatusChanCap := 2 }
    (t, { tunnels := (id, t) :: st.tunnels,
          statusForwarders := st.statusForwarders + 1 })

/-- A registered tunnel used to witness C7. -/
def dbTunnel : ManagedTunnel :=
  { ID := "db".toList, Client := none, Config := c3Config,
    LogChanCap := 50, StatusChanCap := 2 }

/-- A one-tunnel manager registry used to witness C7. -/
def oneTunnelManager : ManagerState :=
  { tunnels := [("db".toList, dbTunnel)], statusForwarders := 1 }

/-- Listener and background-task state of one tunnel around
`TunnelManager.StartTunnel`. -/
structure StartResult where
  Listener : Option Endpoint
  acceptLoopStarted : Bool
  logForwarderStarted : Bool
deriving DecidableEq, Repr

/-- `TunnelManager.StartTunnel` of `manager.go`: resolve the SSH client
config via `GetSSHConfig` (failure is fatal and returns an error); build
the local endpoint `NewEndpoint(BindAddress, LocalPort, "localhost")` and
bind the listener on it — on failure the Listener field has been assigned
the nil result and an error is returned before any goroutine starts; only
on success are the log fan-in goroutine and the accept loop
(`go tunnel.connect`) started.  `prior` is the tunnel's Listener value
before the call; `sshConfigOk` and `bindOk` abstract the two fallible
external calls. -/
def StartTunnel (prior : Option Endpoint) (cfg : TunnelConfig)
    (sshConfigOk : Bool) (bindOk : Bool) :
    Except (List Char) Unit × StartResult :=
  if !sshConfigOk then
    (.error "failed to get SSH config".toList,
     { Listener := prior, acceptLoopStarted := false, logForwarderStarted := false })
  else
    let localEndpoint := NewEndpoint cfg.BindAddress cfg.LocalPort ["localhost".toList]
    if !bindOk then
      (.error ("failed to listen on port ".toList ++ (toString cfg.LocalPort).toList),
       { Listener := none, acceptLoopStarted := false, logForwarderStarted := false })
    else
      (.ok (), { Listener := some localEndpoint, acceptLoopStarted := true,
                 logForwarderStarted := true })

theorem splitOnChar_ne_nil (sep : Char) (s : List Char) : splitOnChar sep s ≠ [] := by
  induction s with
  | nil => simp [splitOnChar]
  | cons c rest ih =>
    by_cases hc : c = sep
    · simp [splitOnChar, hc]
    · simp only [splitOnChar, if_neg hc]
      cases hsp : splitOnChar sep rest with
      | nil => simp
      | cons h t => simp

theorem splitOnChar_of_not_mem (sep : Char) (s : List Char) (h : sep ∉ s) :
    splitOnChar sep s = [s] := by
  induction s with
  | nil => rfl
  | cons c rest ih =>
    simp only [List.mem_cons, not_or] at h
    obtain ⟨h1, h2⟩ := h
    have hc : c ≠ sep := fun e => h1 e.symm
    simp [splitOnChar, hc, ih h2]

theorem splitOnChar_append_cons (sep : Char) (a b : List Char) (ha : sep ∉ a) :
    splitOnChar sep (a ++ sep :: b) = a :: splitOnChar sep b := by
  induction a with
  | nil => simp [splitOnChar]
  | cons c rest ih =>
    simp only [List.mem_cons, not_or] at ha
    obtain ⟨h1, h2⟩ := ha
    have hc : c ≠ sep := fun e => h1 e.symm
    simp [List.cons_append, splitOnChar, hc, ih h2]

theorem splitOnChar_head (sep : Char) (s : List Char) :
    ∃ t, splitOnChar sep s = (s.takeWhile (fun c => c ≠ sep)) :: t := by
  induction s with
  | nil => exact ⟨[], rfl⟩
  | cons c rest ih =>
    by_cases hc : c = sep
    · refine ⟨splitOnChar sep rest, ?_⟩
      subst hc
      simp [splitOnChar, List.takeWhile]
    · obtain ⟨t, ht⟩ := ih
      refine ⟨t, ?_⟩
      simp [splitOnChar, hc, ht, List.takeWhile]

theorem goAtoi_eq_zero_of_invalid (s : List Char) (h : validIntString s = false) :
    goAtoi s = 0 := by
  cases s with
  | nil => rfl
  | cons c rest =>
    simp only [validIntString, Bool.and_eq_false_iff] at h
    simp only [goAtoi]
    rcases h with h | h <;> simp [h]

theorem newEndpoint_clean_host (h : List Char) (p : Int)
    (hh : '@' ∉ h) (hc : ':' ∉ h) :
    NewEndpoint h p [] = { Host := h, Port := p, User := [] } := by
  by_cases hnil : h = []
  · subst hnil
    simp [NewEndpoint, splitOnChar]
  · simp only [NewEndpoint, hnil, false_and, if_neg, not_false_eq_true,
      splitOnChar_of_not_mem '@' h hh, splitOnChar_of_not_mem ':' h hc]

/-- C1 counterexample: a remote dial that fails on every attempt with
"connection refused" — a connection-class error — produces exactly ONE dial
attempt and no backoff sleep, not the three attempts the claim asserts for
every always-failing dial: the first failure already satisfies
`isConnectionError` and tears the client down immediately. -/
theorem forward_retry_single_attempt_cex :
    ((forwardRetryLoop true stopNever
        (fun _ => some "connection refused".toList)).1.countP isDialEvent) = 1 ∧
    sleepDurations ((forwardRetryLoop true stopNever
        (fun _ => some "connection refused".toList)).1) = [] ∧
    (forwardRetryLoop true stopNever
        (fun _ => some "connection refused".toList)).2 = .failed := by decide

/-- C1 (amended): when every remote dial attempt fails with an error that is
NOT classified as connection-level, the forwarder makes exactly 3 dial
attempts, sleeps between consecutive attempts for 1×baseDelay then
2×baseDelay (linearly increasing, strictly increasing), re-checks the stop
signal before each attempt, and after the last failed attempt emits the
Error status and closes and clears the shared client exactly once. -/
theorem forward_retry_three_attempts (m : Nat → List Char)
    (hconn : ∀ a, isConnectionError (some (m a)) = false) :
    (forwardRetryLoop true stopNever (fun a => some (m a))).1 =
      [.checkStop 0, .dialAttempt 0, .logFailure 0, .sleep (1 * baseDelay),
       .checkStop 1, .dialAttempt 1, .logFailure 1, .sleep (2 * baseDelay),
       .checkStop 2, .dialAttempt 2, .logFailure 2,
       .statusError, .statusError, .closeClient] ∧
    ((forwardRetryLoop true stopNever (fun a => some (m a))).1.countP isDialEvent) = 3 ∧
    sleepDurations ((forwardRetryLoop true stopNever (fun a => some (m a))).1) =
      [1 * baseDelay, 2 * baseDelay] ∧
    1 * baseDelay < 2 * baseDelay ∧
    ((forwardRetryLoop true stopNever (fun a => some (m a))).1.count
        ForwardEvent.closeClient) = 1 ∧
    (forwardRetryLoop true stopNever (fun a => some (m a))).2 = .failed := by
  have e0 : closesClientOnFailure 0 (m 0) = false := by
    simp [closesClientOnFailure, maxRetries, hconn 0]
  have e1 : closesClientOnFailure 1 (m 1) = false := by
    simp [closesClientOnFailure, maxRetries, hconn 1]
  have e2 : closesClientOnFailure 2 (m 2) = true := by
    simp [closesClientOnFailure, maxRetries]
  have htr : forwardRetryLoop true stopNever (fun a => some (m a)) =
      ([.checkStop 0, .dialAttempt 0, .logFailure 0, .sleep (1 * baseDelay),
        .checkStop 1, .dialAttempt 1, .logFailure 1, .sleep (2 * baseDelay),
        .checkStop 2, .dialAttempt 2, .logFailure 2,
        .statusError, .statusError, .closeClient], .failed) := by
    simp [forwardRetryLoop, maxRetries, retryFrom, stopNever, e0, e1, e2]
  refine ⟨?_, ?_, ?_, by decide, ?_, ?_⟩ <;> rw [htr] <;> decide

theorem forward_retry_three_attempts_witness :
    (forwardRetryLoop true stopNever (fun _ => some "permission denied".toList)).1 =
      [.checkStop 0, .dialAttempt 0, .logFailure 0, .sleep (1 * baseDelay),
       .checkStop 1, .dialAttempt 1, .logFailure 1, .sleep (2 * baseDelay),
       .checkStop 2, .dialAttempt 2, .logFailure 2,
       .statusError, .statusError, .closeClient] ∧
    ((forwardRetryLoop true stopNever
        (fun _ => some "permission denied".toList)).1.countP isDialEvent) = 3 ∧
    sleepDurations ((forwardRetryLoop true stopNever
        (fun _ => some "permission denied".toList)).1) =
      [1 * baseDelay, 2 * baseDelay] ∧
    1 * baseDelay < 2 * baseDelay ∧
    ((forwardRetryLoop true stopNever
        (fun _ => some "permission denied".toList)).1.count
        ForwardEvent.closeClient) = 1 ∧
    (forwardRetryLoop true stopNever
        (fun _ => some "permission denied".toList)).2 = .failed :=
  forward_retry_three_attempts (fun _ => "permission denied".toList)
    (fun _ => (by decide : isConnectionError (some "permission denied".toList) = false))

/-- C2 counterexample: with a remote dial failing on every attempt with
"administratively prohibited" — matching none of the connection-level
patterns — the run still closes and clears the shared client (once retries
exhaust), and the Error status is emitted in that same path; so the client
is neither "closed iff connection-level" nor "left intact after the tunnel
transitions to Error". -/
theorem client_teardown_cex :
    isConnectionError (some "administratively prohibited".toList) = false ∧
    ((forwardRetryLoop true stopNever
        (fun _ => some "administratively prohibited".toList)).1.count
        ForwardEvent.closeClient) = 1 ∧
    ForwardEvent.statusError ∈
      (forwardRetryLoop true stopNever
        (fun _ => some "administratively prohibited".toList)).1 := by decide

/-- C2 (amended): on a remote-dial failure at a given attempt, the shared
client is closed and cleared if and only if the error message matches a
connection-level pattern OR the attempt is the final one of the 3; a
non-connection-level failure on a non-final attempt closes nothing, emits
no Error status, and the loop retries after a backoff of
(attempt+1)×baseDelay. -/
theorem client_teardown_iff (stop : Nat → Bool) (dial : Nat → Option (List Char))
    (a fuel : Nat) (e : List Char)
    (hs : stop a = false) (hd : dial a = some e) :
    (closesClientOnFailure a e = true ↔
      (a = maxRetries - 1 ∨ isConnectionError (some e) = true)) ∧
    (closesClientOnFailure a e = true →
      retryFrom true stop dial (fuel + 1) a =
        ([.checkStop a, .dialAttempt a, .logFailure a, .statusError, .statusError,
          .closeClient], .failed)) ∧
    (closesClientOnFailure a e = false →
      retryFrom true stop dial (fuel + 1) a =
        ([.checkStop a, .dialAttempt a, .logFailure a, .sleep ((a + 1) * baseDelay)] ++
           (retryFrom true stop dial fuel (a + 1)).1,
         (retryFrom true stop dial fuel (a + 1)).2) ∧
      ForwardEvent.closeClient ∉
        ([.checkStop a, .dialAttempt a, .logFailure a,
          .sleep ((a + 1) * baseDelay)] : List ForwardEvent) ∧
      ForwardEvent.statusError ∉
        ([.checkStop a, .dialAttempt a, .logFailure a,
          .sleep ((a + 1) * baseDelay)] : List ForwardEvent)) := by
  refine ⟨?_, ?_, ?_⟩
  · simp [closesClientOnFailure]
  · intro hclose
    simp [retryFrom, hs, hd, hclose]
  · intro hclose
    refine ⟨by simp [retryFrom, hs, hd, hclose], by simp, by simp⟩

theorem client_teardown_iff_witness :
    (closesClientOnFailure 1 "connection reset by peer".toList = true ↔
      (1 = maxRetries - 1 ∨
        isConnectionError (some "connection reset by peer".toList) = true)) ∧
    (closesClientOnFailure 1 "connection reset by peer".toList = true →
      retryFrom true stopNever (fun _ => some "connection reset by peer".toList) 2 1 =
        ([.checkStop 1, .dialAttempt 1, .logFailure 1, .statusError, .statusError,
          .closeClient], .failed)) ∧
    (closesClientOnFailure 1 "connection reset by peer".toList = false →
      retryFrom true stopNever (fun _ => some "connection reset by peer".toList) 2 1 =
        ([.checkStop 1, .dialAttempt 1, .logFailure 1, .sleep ((1 + 1) * baseDelay)] ++
           (retryFrom true stopNever
             (fun _ => some "connection reset by peer".toList) 1 (1 + 1)).1,
         (retryFrom true stopNever
             (fun _ => some "connection reset by peer".toList) 1 (1 + 1)).2) ∧
      ForwardEvent.closeClient ∉
        ([.checkStop 1, .dialAttempt 1, .logFailure 1,
          .sleep ((1 + 1) * baseDelay)] : List ForwardEvent) ∧
      ForwardEvent.statusError ∉
        ([.checkStop 1, .dialAttempt 1, .logFailure 1,
          .sleep ((1 + 1) * baseDelay)] : List ForwardEvent)) :=
  client_teardown_iff stopNever (fun _ => some "connection reset by peer".toList)
    1 1 "connection reset by peer".toList (by decide) rfl

/-- C3 counterexample: with no bastion configured and remote port 5432, the
SSH hop is NOT remoteHost:remotePort as claimed — the hop port is the
bastion port defaulted to 22, so the hop is db.example.com:22, not
db.example.com:5432. -/
theorem ssh_hop_no_bastion_cex :
    (figureOutRemoteVsBastion c3Config).1 ≠
      { Host := "db.example.com".toList, Port := 5432, User := [] } ∧
    (figureOutRemoteVsBastion c3Config).1 =
      { Host := "db.example.com".toList, Port := 22, User := [] } := by decide

/-- C3 (amended): for hosts free of "@" and ":" — if a bastion host is
configured, the SSH hop is the bastion host with the bastion port
(defaulting to 22 when 0) and the remote dial target is
remoteHost:remotePort; if no bastion host is configured, the SSH hop host
is remoteHost but the hop port is still the bastion port field defaulting
to 22 (the remote port is NOT used for the hop), and the remote dial target
is localhost:remotePort. -/
theorem figureOutRemoteVsBastion_spec (cfg : TunnelConfig)
    (hb1 : '@' ∉ cfg.Bastion.Host) (hb2 : ':' ∉ cfg.Bastion.Host)
    (hr1 : '@' ∉ cfg.RemoteHost) (hr2 : ':' ∉ cfg.RemoteHost) :
    (cfg.Bastion.Host ≠ [] →
      figureOutRemoteVsBastion cfg =
        ({ Host := cfg.Bastion.Host,
           Port := if cfg.Bastion.Port = 0 then 22 else cfg.Bastion.Port, User := [] },
         { Host := cfg.RemoteHost, Port := cfg.RemotePort, User := [] })) ∧
    (cfg.Bastion.Host = [] →
      figureOutRemoteVsBastion cfg =
        ({ Host := cfg.RemoteHost,
           Port := if cfg.Bastion.Port = 0 then 22 else cfg.Bastion.Port, User := [] },
         { Host := "localhost".toList, Port := cfg.RemotePort, User := [] })) := by
  constructor
  · intro hne
    simp only [figureOutRemoteVsBastion, if_neg hne]
    rw [newEndpoint_clean_host _ _ hr1 hr2, newEndpoint_clean_host _ _ hb1 hb2]
  · intro heq
    simp only [figureOutRemoteVsBastion, heq, if_pos]
    rw [newEndpoint_clean_host "localhost".toList _ (by decide) (by decide),
      newEndpoint_clean_host _ _ hr1 hr2]

theorem figureOutRemoteVsBastion_spec_witness :
    (c3BastionConfig.Bastion.Host ≠ [] →
      figureOutRemoteVsBastion c3BastionConfig =
        ({ Host := c3BastionConfig.Bastion.Host,
           Port := if c3BastionConfig.Bastion.Port = 0 then 22
                   else c3BastionConfig.Bastion.Port, User := [] },
         { Host := c3BastionConfig.RemoteHost,
           Port := c3BastionConfig.RemotePort, User := [] })) ∧
    (c3BastionConfig.Bastion.Host = [] →
      figureOutRemoteVsBastion c3BastionConfig =
        ({ Host := c3BastionConfig.RemoteHost,
           Port := if c3BastionConfig.Bastion.Port = 0 then 22
                   else c3BastionConfig.Bastion.Port, User := [] },
         { Host := "localhost".toList,
           Port := c3BastionConfig.RemotePort, User := [] })) :=
  figureOutRemoteVsBastion_spec c3BastionConfig (by decide) (by decide)
    (by decide) (by decide)

/-- C4 counterexample: for a started tunnel, calling `Stop` a second time
after the first has completed is NOT safe: the first call closes the stop
channel and leaves it non-nil, so the second call panics with
"close of closed channel". -/
theorem stop_twice_panics_cex :
    (Stop startedTunnel).bind Stop =
      Except.error "close of closed channel".toList := rfl

/-- C4 (amended): `Stop` is safely repeatable only for a tunnel whose stop
channel is nil (never started): then a second call is a no-op returning the
same state with the client cleared.  For any tunnel whose stop channel was
initialized, the first `Stop` closes it, and a second `Stop` panics
(closing an already-closed channel) instead of completing. -/
theorem stop_second_call (t t' : TunnelStopState) (h : Stop t = Except.ok t') :
    (t.stopChan = ChanState.nilChan →
      Stop t' = Except.ok t' ∧ t'.Client = none) ∧
    (t.stopChan ≠ ChanState.nilChan →
      Stop t' = Except.error "close of closed channel".toList) := by
  cases t with
  | mk sc cl =>
    cases sc with
    | nilChan =>
      simp only [Stop, Except.ok.injEq] at h
      subst h
      exact ⟨fun _ => ⟨rfl, rfl⟩, fun hne => absurd rfl hne⟩
    | opened =>
      simp only [Stop, Except.ok.injEq] at h
      subst h
      refine ⟨fun hc => by simp at hc, fun _ => rfl⟩
    | closed => simp [Stop] at h

theorem stop_second_call_witness :
    ((TunnelStopState.mk ChanState.opened (some ())).stopChan = ChanState.nilChan →
      Stop (TunnelStopState.mk ChanState.closed none) =
        Except.ok (TunnelStopState.mk ChanState.closed none) ∧
      (TunnelStopState.mk ChanState.closed none).Client = none) ∧
    ((TunnelStopState.mk ChanState.opened (some ())).stopChan ≠ ChanState.nilChan →
      Stop (TunnelStopState.mk ChanState.closed none) =
        Except.error "close of closed channel".toList) :=
  stop_second_call (TunnelStopState.mk ChanState.opened (some ()))
    (TunnelStopState.mk ChanState.closed none) rfl

/-- C5: on any health tick where a shared client exists and the session
open fails, the latency is set to the `-1` "unknown" sentinel — whatever
positive value a prior tick left there — and the shared client is closed
and cleared. -/
theorem healthTick_failure (s : HealthState) (now : Rat) (e : List Char)
    (measured : Int) (h : s.Client = some ()) :
    (healthTick s now (some e) measured).Metrics.Latency = -1 ∧
    (healthTick s now (some e) measured).Client = none := by
  simp [healthTick, h]

theorem healthTick_failure_witness :
    (healthTick { Client := some (), Metrics := sampleMetrics } 12
        (some "ssh: connection lost".toList) 3).Metrics.Latency = -1 ∧
    (healthTick { Client := some (), Metrics := sampleMetrics } 12
        (some "ssh: connection lost".toList) 3).Client = none :=
  healthTick_failure { Client := some (), Metrics := sampleMetrics } 12
    "ssh: connection lost".toList 3 rfl

/-- C6: on a metrics tick with strictly positive elapsed time, each rate is
set to (current − previous) / elapsed and the previous-counter snapshots
and lastUpdate advance; with zero elapsed time the tick is a no-op leaving
every field unchanged. -/
theorem updateMetrics_spec (m : TunnelMetrics) (now : Rat) :
    (0 < now - m.LastUpdate →
      updateMetrics m now =
        { m with
          CurrentRateIn := ((m.BytesIn - m.LastBytesIn : Int) : Rat) / (now - m.LastUpdate),
          CurrentRateOut := ((m.BytesOut - m.LastBytesOut : Int) : Rat) / (now - m.LastUpdate),
          LastBytesIn := m.BytesIn,
          LastBytesOut := m.BytesOut,
          LastUpdate := now }) ∧
    (now - m.LastUpdate = 0 → updateMetrics m now = m) := by
  constructor
  · intro h
    simp only [updateMetrics, if_pos h]
  · intro h
    simp [updateMetrics, h]

theorem updateMetrics_spec_witness :
    updateMetrics sampleMetrics 12 =
      { sampleMetrics with
        CurrentRateIn :=
          ((sampleMetrics.BytesIn - sampleMetrics.LastBytesIn : Int) : Rat) /
            (12 - sampleMetrics.LastUpdate),
        CurrentRateOut :=
          ((sampleMetrics.BytesOut - sampleMetrics.LastBytesOut : Int) : Rat) /
            (12 - sampleMetrics.LastUpdate),
        LastBytesIn := sampleMetrics.BytesIn,
        LastBytesOut := sampleMetrics.BytesOut,
        LastUpdate := 12 } ∧
    updateMetrics sampleMetrics 10 = sampleMetrics :=
  ⟨(updateMetrics_spec sampleMetrics 12).1 (by norm_num [sampleMetrics]),
   (updateMetrics_spec sampleMetrics 10).2 (by norm_num [sampleMetrics])⟩

/-- C7: `createTunnel` is idempotent in the id — when the id is already
registered, the call returns exactly the registered tunnel instance, with
any config argument, and leaves the whole manager state (registry and
spawned status-forwarding goroutines) unchanged. -/
theorem createTunnel_idempotent (st : ManagerState) (id : List Char)
    (config : TunnelConfig) (t : ManagedTunnel)
    (h : st.tunnels.lookup id = some t) :
    CreateTunnel st id config = (t, st) := by
  simp [CreateTunnel, h]

theorem createTunnel_idempotent_witness :
    CreateTunnel oneTunnelManager "db".toList c3BastionConfig =
      (dbTunnel, oneTunnelManager) :=
  createTunnel_idempotent oneTunnelManager "db".toList c3BastionConfig dbTunnel rfl

/-- C8: whenever the local listener cannot be bound, `StartTunnel` returns
a non-nil error, the tunnel's listener is nil and neither the accept loop
nor the log fan-in goroutine has been started — the tunnel remains in the
stopped state. -/
theorem startTunnel_bind_failure (prior : Option Endpoint) (cfg : TunnelConfig) :
    (StartTunnel prior cfg true false).1 =
      Except.error ("failed to listen on port ".toList ++ (toString cfg.LocalPort).toList) ∧
    (StartTunnel prior cfg true false).2.Listener = none ∧
    (StartTunnel prior cfg true false).2.acceptLoopStarted = false ∧
    (StartTunnel prior cfg true false).2.logForwarderStarted = false :=
  ⟨rfl, rfl, rfl, rfl⟩

/-- C9: `NewEndpointFromString` maps "user@host:1234" to user "user", host
"host", port 1234; "" and "@" to all-empty with port 0; "user@host@domain.com"
to user "user", host "host", port 0 (text after the second "@" discarded);
and for any host without "@" or ":" followed by ":" and a malformed
(not sign-plus-digits) port string, the port is 0 and parsing does not fail. -/
theorem endpoint_parsing_cases :
    NewEndpointFromString "user@host:1234".toList =
      { Host := "host".toList, Port := 1234, User := "user".toList } ∧
    NewEndpointFromString "".toList = { Host := [], Port := 0, User := [] } ∧
    NewEndpointFromString "@".toList = { Host := [], Port := 0, User := [] } ∧
    NewEndpointFromString "user@host@domain.com".toList =
      { Host := "host".toList, Port := 0, User := "user".toList } ∧
    ∀ h q : List Char, '@' ∉ h → ':' ∉ h → '@' ∉ q → ':' ∉ q →
      validIntString q = false →
      NewEndpointFromString (h ++ ':' :: q) = { Host := h, Port := 0, User := [] } := by
  refine ⟨by decide, by decide, by decide, by decide, ?_⟩
  intro h q h1 h2 h3 h4 h5
  have hall : '@' ∉ h ++ ':' :: q := by
    simp only [List.mem_append, List.mem_cons, not_or]
    exact ⟨h1, by decide, h3⟩
  simp only [NewEndpointFromString, splitOnChar_of_not_mem _ _ hall,
    splitOnChar_append_cons _ _ _ h2, splitOnChar_of_not_mem _ _ h4,
    goAtoi_eq_zero_of_invalid q h5]

theorem endpoint_parsing_cases_witness :
    NewEndpointFromString ("host".toList ++ ':' :: "12ab".toList) =
      { Host := "host".toList, Port := 0, User := [] } :=
  endpoint_parsing_cases.2.2.2.2 "host".toList "12ab".toList (by decide) (by decide)
    (by decide) (by decide) (by decide)

/-- C10 counterexample: the claim says that when the host string contains a
":", the port is parsed from all text after the first ":" (0 if non-numeric).
For host "h:1:2" with port argument 22, the text after the first ":" is
"1:2", which is non-numeric, so the claim predicts port 0; the code takes
`parts[1]` of the ":"-split, i.e. the segment "1", giving port 1. -/
theorem newEndpoint_port_override_cex :
    goAtoi "1:2".toList = 0 ∧ (NewEndpoint "h:1:2".toList 22 []).Port = 1 := by decide

/-- C10 (amended): a port embedded in the host string overrides the port
argument, but the embedded port is parsed from the segment of the
post-user host between the first and second ":" (`parts[1]` of the split),
not from all text after the first ":"; a ":" inside the user part (before
"@") does not trigger the override; and the port argument is used exactly
when the post-user host contains no ":". -/
theorem newEndpoint_port_override
    (u h rest : List Char) (p : Int)
    (hu : '@' ∉ u) (hh : '@' ∉ h) (hr : '@' ∉ rest) (hc : ':' ∉ h) :
    NewEndpoint (u ++ '@' :: (h ++ ':' :: rest)) p [] =
      { Host := h, Port := goAtoi (rest.takeWhile (fun c => c ≠ ':')), User := u } ∧
    NewEndpoint (h ++ ':' :: rest) p [] =
      { Host := h, Port := goAtoi (rest.takeWhile (fun c => c ≠ ':')), User := [] } ∧
    NewEndpoint (u ++ '@' :: h) p [] = { Host := h, Port := p, User := u } ∧
    NewEndpoint h p [] = { Host := h, Port := p, User := [] } := by
  obtain ⟨t, ht⟩ := splitOnChar_head ':' rest
  have hba : '@' ∉ h ++ ':' :: rest := by
    simp only [List.mem_append, List.mem_cons, not_or]
    exact ⟨hh, by decide, hr⟩
  refine ⟨?_, ?_, ?_, ?_⟩
  · simp only [NewEndpoint, List.append_ne_nil_of_right_ne_nil, ne_eq,
      reduceCtorEq, not_false_eq_true, List.cons_ne_nil, false_and, if_neg,
      splitOnChar_append_cons '@' u (h ++ ':' :: rest) hu,
      splitOnChar_of_not_mem _ _ hba, splitOnChar_append_cons ':' h rest hc, ht]
  · simp only [NewEndpoint, List.append_ne_nil_of_right_ne_nil, ne_eq,
      reduceCtorEq, not_false_eq_true, List.cons_ne_nil, false_and, if_neg,
      splitOnChar_of_not_mem '@' _ hba, splitOnChar_append_cons ':' h rest hc, ht]
  · simp only [NewEndpoint, List.append_ne_nil_of_right_ne_nil, ne_eq,
      reduceCtorEq, not_false_eq_true, List.cons_ne_nil, false_and, if_neg,
      splitOnChar_append_cons '@' u h hu, splitOnChar_of_not_mem ':' h hc,
      splitOnChar_of_not_mem '@' h hh]
  · by_cases hnil : h = []
    · subst hnil
      simp [NewEndpoint, splitOnChar]
    · simp only [NewEndpoint, hnil, false_and, if_neg, not_false_eq_true,
        splitOnChar_of_not_mem '@' h hh, splitOnChar_of_not_mem ':' h hc]

theorem newEndpoint_port_override_witness :
    NewEndpoint ("user".toList ++ '@' :: ("example.com".toList ++ ':' :: "9000".toList)) 22 [] =
      { Host := "example.com".toList,
        Port := goAtoi ("9000".toList.takeWhile (fun c => c ≠ ':')),
        User := "user".toList } ∧
    NewEndpoint ("example.com".toList ++ ':' :: "9000".toList) 22 [] =
      { Host := "example.com".toList,
        Port := goAtoi ("9000".toList.takeWhile (fun c => c ≠ ':')), User := [] } ∧
    NewEndpoint ("user".toList ++ '@' :: "example.com".toList) 22 [] =
      { Host := "example.com".toList, Port := 22, User := "user".toList } ∧
    NewEndpoint "example.com".toList 22 [] =
      { Host := "example.com".toList, Port := 22, User := [] } :=
  newEndpoint_port_override "user".toList "example.com".toList "9000".toList 22
    (by decide) (by decide) (by decide) (by decide)
